import Mathlib

/-!
# Verification of the airogue content-generation pipeline

Shallow embedding of the LLM world-generation code of the `airogue`
repository (`src/llm/models.py`, `src/llm/generators/*.py`, `src/llm/world.py`)
together with the semantics of the libraries the code leans on where those
semantics decide the claims (pydantic v1 field validation as re-exported by
`langchain_core.pydantic_v1`, `json` serialization, `random.choice`).

The generators call an LLM ("CompletionService"); runs are modelled by
threading an explicit state that scripts the service responses and counts
the calls, exactly as the tests of the repository stub the service.
-/

namespace AiRogue

/-- JSON values, as produced by the Python `json.loads` and by the langchain
`JsonOutputParser`.  Numbers are restricted to integers: every number
appearing in the data of the repository (attribute values, uids) is integral. -/
inductive Json where
  | null : Json
  | bool (b : Bool) : Json
  | num (n : Int) : Json
  | str (s : String) : Json
  | arr (elems : List Json) : Json
  | obj (fields : List (String × Json)) : Json
deriving Repr

/-- Association-list lookup used to model `dict[key]` / `dict.get(key)`
on a parsed JSON object (Python dicts preserve insertion order and the
first binding wins; parsed JSON objects have unique keys). -/
def lookupPairs : List (String × Json) → String → Option Json
  | [], _ => none
  | (k, v) :: rest, key => if k = key then some v else lookupPairs rest key

/-- `j.get? key`: field access on a JSON object, `none` when `j` is not an
object or lacks the key. -/
def Json.get? : Json → String → Option Json
  | .obj fields, key => lookupPairs fields key
  | _, _ => none

/-- Python exceptions that the embedded code can raise.  The payload keeps
the message (or enough of it to identify the raise site). -/
inductive PyErr where
  | nameError (msg : String) : PyErr
  | typeError (msg : String) : PyErr
  | keyError (msg : String) : PyErr
  | indexError (msg : String) : PyErr
  | validationError (msg : String) : PyErr
  | outputParserException (msg : String) : PyErr
  | attributeError (msg : String) : PyErr
deriving Repr, DecidableEq

/-! ## pydantic v1 field validation

`src/llm/models.py` declares its models with `langchain_core.pydantic_v1`,
which is pydantic v1 (also when pydantic 2 is installed, via `pydantic.v1`).
The validators below follow the pydantic v1 `validators.py`:
* `str` fields accept `str` and coerce `int`/`float`/`bool` via `str(...)`;
  everything else raises `ValidationError` ("str type expected");
* `List[...]` fields accept lists (and tuples/sets/generators, which do not
  occur as JSON values) and reject everything else — in particular a `dict`
  raises "value is not a valid list";
* unknown keys are ignored (default `Extra.ignore`);
* a declared default (`= []`, `default_factory=object`) is used, unvalidated,
  when the key is missing; fields without a default raise "field required".
-/

/-- pydantic v1 `str` field validation (`str_validator`): strings pass
through, numbers and booleans are coerced with Python `str`, other values
are rejected. -/
def pyStrField : Json → Except PyErr String
  | .str s => .ok s
  | .num n => .ok (toString n)
  | .bool true => .ok "True"
  | .bool false => .ok "False"
  | _ => .error (.validationError "str type expected")

/-- `class GameMechanic(BaseModel)`: `name: str`, `description: str`
(`src/llm/models.py`). -/
structure GameMechanic where
  name : String
  description : String
deriving Repr, DecidableEq

/-- Validation of one `GameMechanic` from a JSON value (pydantic v1:
required `str` fields, extra keys ignored). -/
def GameMechanic.validate (j : Json) : Except PyErr GameMechanic :=
  match j with
  | .obj _ =>
    match j.get? "name", j.get? "description" with
    | some nj, some dj => do
      let n ← pyStrField nj
      let d ← pyStrField dj
      .ok ⟨n, d⟩
    | _, _ => .error (.validationError "field required")
  | _ => .error (.validationError "value is not a valid dict")

/-- `class GameMechanics(BaseModel)`: `mechanics: List[GameMechanic]`
(`src/llm/models.py`).  Note: the field has no `min_items`/`max_items`
bound and no uniqueness constraint. -/
structure GameMechanics where
  mechanics : List GameMechanic
deriving Repr, DecidableEq

/-- Validate each element of a `List[GameMechanic]` field. -/
def gameMechanicListValidate : List Json → Except PyErr (List GameMechanic)
  | [] => .ok []
  | j :: rest => do
    let g ← GameMechanic.validate j
    let gs ← gameMechanicListValidate rest
    .ok (g :: gs)

/-- Validation of `GameMechanics` from a JSON value.  The `mechanics` field
is required and must be a list; a `dict` (or any non-list) raises. -/
def GameMechanics.validate (j : Json) : Except PyErr GameMechanics :=
  match j with
  | .obj _ =>
    match j.get? "mechanics" with
    | some (.arr l) => do
      let gs ← gameMechanicListValidate l
      .ok ⟨gs⟩
    | some _ => .error (.validationError "value is not a valid list")
    | none => .error (.validationError "field required")
  | _ => .error (.validationError "value is not a valid dict")

/-- `str(GameMechanics)` — `src/llm/models.py` line 43:
`return "- " + "\n- ".join(self.mechanics)`.
`str.join` demands string elements; the list holds `GameMechanic` model
objects, so joining a non-empty list raises
`TypeError: sequence item 0: expected str instance, GameMechanic found`.
Only the empty list survives (the join of `[]` is `""`). -/
def GameMechanics.pyStrOf (g : GameMechanics) : Except PyErr String :=
  match g.mechanics with
  | [] => .ok "- "
  | _ :: _ =>
    .error (.typeError "sequence item 0: expected str instance, GameMechanic found")

/-- `class Item(BaseModel)`: `name: str`,
`ascii_symbol: str = Field(description=...)`, `description: str`
(`src/llm/models.py`).  The `Field(description=...)` argument is
documentation only: pydantic v1 attaches no length or character-set
validation to the field, so `ascii_symbol` accepts any string. -/
structure Item where
  name : String
  ascii_symbol : String
  description : String
deriving Repr, DecidableEq

/-- Validation of one `Item` from a JSON value (three required `str`
fields; extra keys — e.g. the `mechanic`/`symbol`/`rarity` keys the item
prompts request — are ignored and dropped). -/
def Item.validate (j : Json) : Except PyErr Item :=
  match j with
  | .obj _ =>
    match j.get? "name", j.get? "ascii_symbol", j.get? "description" with
    | some nj, some sj, some dj => do
      let n ← pyStrField nj
      let s ← pyStrField sj
      let d ← pyStrField dj
      .ok ⟨n, s, d⟩
    | _, _, _ => .error (.validationError "field required")
  | _ => .error (.validationError "value is not a valid dict")

/-- `class Items(BaseModel)`: `items: List[Item]` (`src/llm/models.py`). -/
structure Items where
  items : List Item
deriving Repr, DecidableEq

/-- Validate each element of a `List[Item]` field. -/
def itemListValidate : List Json → Except PyErr (List Item)
  | [] => .ok []
  | j :: rest => do
    let i ← Item.validate j
    let is ← itemListValidate rest
    .ok (i :: is)

/-- Validation of `Items` from a JSON value. -/
def Items.validate (j : Json) : Except PyErr Items :=
  match j with
  | .obj _ =>
    match j.get? "items" with
    | some (.arr l) => do
      let is ← itemListValidate l
      .ok ⟨is⟩
    | some _ => .error (.validationError "value is not a valid list")
    | none => .error (.validationError "field required")
  | _ => .error (.validationError "value is not a valid dict")

/-- `class Action(BaseModel)` (`src/llm/models.py`) overrides `__init__`
with `def __init__(self, name, args)` that skips `BaseModel.__init__` and
assigns `self.name`/`self.args` directly; every call raises
(`AttributeError` on the missing pydantic internals, or `TypeError` for the
keyword arguments pydantic validation passes, and `get_action_function` is
an unresolved name besides).  No `Action` value is constructible, so this
type has no constructors. -/
inductive PyAction : Type
deriving Repr, DecidableEq

/-- Validation of a `List[Action]` element always fails: pydantic calls
`Action(**value)` and the overridden `__init__` rejects the keyword
arguments. -/
def pyActionValidate (_j : Json) : Except PyErr PyAction :=
  .error (.typeError "Action.__init__ got an unexpected keyword argument")

/-- Validate a `pipelines: List[Action]` field value: only the empty list
survives element validation. -/
def pyActionListValidate : List Json → Except PyErr (List PyAction)
  | [] => .ok []
  | j :: _ => do
    let a ← pyActionValidate j
    .ok [a]

/-- `class ComponentModel(BaseModel)`: `name: str`,
`attributes: Dict[str, Any] = {}`, `pipelines: List[Action] = []`
(`src/llm/models.py`).  Attribute values are arbitrary JSON data. -/
structure ComponentModel where
  name : String
  attributes : List (String × Json)
  pipelines : List PyAction
deriving Repr

/-- Validate a `Dict[str, Any]` field value (keys are strings, values pass
through unvalidated). -/
def pyDictAnyValidate : Json → Except PyErr (List (String × Json))
  | .obj fields => .ok fields
  | _ => .error (.validationError "value is not a valid dict")

/-- Validation of one `ComponentModel` from a JSON value.  `attributes`
and `pipelines` have defaults (`{}` / `[]`) used when the key is missing. -/
def ComponentModel.validate (j : Json) : Except PyErr ComponentModel :=
  match j with
  | .obj _ => do
    let n ← match j.get? "name" with
      | some nj => pyStrField nj
      | none => .error (.validationError "field required")
    let attrs ← match j.get? "attributes" with
      | some aj => pyDictAnyValidate aj
      | none => .ok []
    let pipes ← match j.get? "pipelines" with
      | some (.arr l) => pyActionListValidate l
      | some _ => .error (.validationError "value is not a valid list")
      | none => .ok []
    .ok ⟨n, attrs, pipes⟩
  | _ => .error (.validationError "value is not a valid dict")

/-- The value held by
`uid: Union[str, int, object] = Field(default_factory=object)` on
`EntityModel` (`src/llm/models.py`).  pydantic v1 tries the union branches
in order, so any string/number/boolean input is coerced by the `str`
branch; `defaultObject` is the unvalidated `object()` produced by the
default factory; `objValue` holds any other value (`None`, lists, dicts)
accepted verbatim by the `object` branch. -/
inductive PyUid where
  | str (s : String) : PyUid
  | defaultObject : PyUid
  | objValue (j : Json) : PyUid
deriving Repr

/-- Validation of the `uid` union field from a JSON value: the pydantic v1
`str_validator` runs first and accepts (coercing) strings, numbers and
booleans; `None`, lists and objects fall through `str` and `int` to the
`object` branch, which accepts anything. -/
def pyUidValidate : Json → Except PyErr PyUid
  | .str s => .ok (.str s)
  | .num n => .ok (.str (toString n))
  | .bool true => .ok (.str "True")
  | .bool false => .ok (.str "False")
  | j => .ok (.objValue j)

/-- `class EntityModel(BaseModel)`: `name: str`, `uid: Union[str, int,
object] = Field(default_factory=object)`, `components: List[ComponentModel]
= []` (`src/llm/models.py`). -/
structure EntityModel where
  name : String
  uid : PyUid
  components : List ComponentModel
deriving Repr

/-- Validate each element of a `List[ComponentModel]` field. -/
def componentListValidate : List Json → Except PyErr (List ComponentModel)
  | [] => .ok []
  | j :: rest => do
    let c ← ComponentModel.validate j
    let cs ← componentListValidate rest
    .ok (c :: cs)

/-- Validation of one `EntityModel` from a JSON value.  A missing `uid`
key invokes `default_factory=object`, yielding the unserializable
`object()` sentinel. -/
def EntityModel.validate (j : Json) : Except PyErr EntityModel :=
  match j with
  | .obj _ => do
    let n ← match j.get? "name" with
      | some nj => pyStrField nj
      | none => .error (.validationError "field required")
    let u ← match j.get? "uid" with
      | some uj => pyUidValidate uj
      | none => .ok PyUid.defaultObject
    let cs ← match j.get? "components" with
      | some (.arr l) => componentListValidate l
      | some _ => .error (.validationError "value is not a valid list")
      | none => .ok []
    .ok ⟨n, u, cs⟩
  | _ => .error (.validationError "value is not a valid dict")

/-- Validate each element of the `global_entities: List[EntityModel]`
field. -/
def entityListValidate : List Json → Except PyErr (List EntityModel)
  | [] => .ok []
  | j :: rest => do
    let e ← EntityModel.validate j
    let es ← entityListValidate rest
    .ok (e :: es)

/-- Validation of the value passed for `global_entities: List[EntityModel]
= []`.  The pydantic v1 `list_validator` accepts lists (and tuples, sets and
generators, which do not occur here) and raises
`value is not a valid list` for anything else — in particular for the
Python dict `{}` that `WorldGenerator.generate` passes. -/
def globalEntitiesValidate : Json → Except PyErr (List EntityModel)
  | .arr l => entityListValidate l
  | _ => .error (.validationError "value is not a valid list")

/-- `class WorldModel(BaseModel)` (`src/llm/models.py`): `theme: str`,
`title: str`, `plot: str`, `mechanics: GameMechanics`, `items: Items`,
`global_entities: List[EntityModel] = []`. -/
structure WorldModel where
  theme : String
  title : String
  plot : String
  mechanics : GameMechanics
  items : Items
  global_entities : List EntityModel
deriving Repr

/-- Validation of a `WorldModel` from a parsed JSON document — this is
what `WorldModel(**json.load(f))` performs (`src/llm/world.py`,
`src/game/world_tools.py`).  `global_entities` defaults to `[]` when the
key is missing. -/
def WorldModel.validate (j : Json) : Except PyErr WorldModel :=
  match j with
  | .obj _ => do
    let θ ← match j.get? "theme" with
      | some v => pyStrField v
      | none => .error (.validationError "field required")
    let t ← match j.get? "title" with
      | some v => pyStrField v
      | none => .error (.validationError "field required")
    let p ← match j.get? "plot" with
      | some v => pyStrField v
      | none => .error (.validationError "field required")
    let ms ← match j.get? "mechanics" with
      | some v => GameMechanics.validate v
      | none => .error (.validationError "field required")
    let is ← match j.get? "items" with
      | some v => Items.validate v
      | none => .error (.validationError "field required")
    let ges ← match j.get? "global_entities" with
      | some v => globalEntitiesValidate v
      | none => .ok []
    .ok ⟨θ, t, p, ms, is, ges⟩
  | _ => .error (.validationError "value is not a valid dict")

/-! ## JSON serialization (`WorldModel.json()` in pydantic v1)

`src/llm/generators/world_generator.py` (`__main__`) persists the model
with `world.json(indent=2)` and `src/llm/world.py` / `src/game/world_tools.py`
reload it with `WorldModel(**json.load(f))`.  The pydantic v1 `.json()`
dumps every declared field; a `uid` still holding the `object()` produced
by `default_factory=object` is not JSON-serializable and raises
`TypeError: Object of type object is not JSON serializable`.

(`src/llm/generators/cli.py` line 71 instead calls
`world.model_dump_json(indent=2)`, a pydantic **v2** method that does not
exist on these v1 models and raises `AttributeError` unconditionally.)
-/

/-- Serialize one `Item`. -/
def Item.toJson (i : Item) : Json :=
  .obj [("name", .str i.name), ("ascii_symbol", .str i.ascii_symbol),
        ("description", .str i.description)]

/-- Serialize one `GameMechanic`. -/
def GameMechanic.toJson (g : GameMechanic) : Json :=
  .obj [("name", .str g.name), ("description", .str g.description)]

/-- Serialize `GameMechanics`. -/
def GameMechanics.toJson (g : GameMechanics) : Json :=
  .obj [("mechanics", .arr (g.mechanics.map GameMechanic.toJson))]

/-- Serialize `Items`. -/
def Items.toJson (i : Items) : Json :=
  .obj [("items", .arr (i.items.map Item.toJson))]

/-- Serialize a `uid` value: strings pass through; the `object()` default
is not JSON-serializable and raises `TypeError`; other union-accepted
values (`None`, lists, dicts that round-tripped through the `object`
branch) serialize as themselves. -/
def PyUid.serialize : PyUid → Except PyErr Json
  | .str s => .ok (.str s)
  | .defaultObject =>
    .error (.typeError "Object of type object is not JSON serializable")
  | .objValue j => .ok j

/-- Serialize one `ComponentModel` (its `pipelines` list is necessarily
empty: `PyAction` has no values). -/
def ComponentModel.toJson (c : ComponentModel) : Json :=
  .obj [("name", .str c.name), ("attributes", .obj c.attributes),
        ("pipelines", .arr (c.pipelines.map (fun a => nomatch a)))]

/-- Serialize one `EntityModel`; fails when the `uid` is the default
`object()`. -/
def EntityModel.serialize (e : EntityModel) : Except PyErr Json := do
  let u ← e.uid.serialize
  .ok (.obj [("name", .str e.name), ("uid", u),
             ("components", .arr (e.components.map ComponentModel.toJson))])

/-- Serialize each entity of `global_entities`. -/
def entityListSerialize : List EntityModel → Except PyErr (List Json)
  | [] => .ok []
  | e :: rest => do
    let ej ← e.serialize
    let ejs ← entityListSerialize rest
    .ok (ej :: ejs)

/-- `WorldModel.json()` (pydantic v1): the serialized artifact with
top-level keys `theme, title, plot, mechanics, items, global_entities`.
Fails with `TypeError` when an entity uid is the default `object()`. -/
def WorldModel.serialize (w : WorldModel) : Except PyErr Json := do
  let ges ← entityListSerialize w.global_entities
  .ok (.obj [("theme", .str w.theme), ("title", .str w.title),
             ("plot", .str w.plot), ("mechanics", w.mechanics.toJson),
             ("items", w.items.toJson), ("global_entities", .arr ges)])

/-- The top-level keys of a serialized JSON object. -/
def Json.topKeys : Json → List String
  | .obj fields => fields.map Prod.fst
  | _ => []

/-! ## The CompletionService and the generator runs

The generators invoke an LLM through langchain chains ending in
`self.llm`.  Runs are modelled with a scripted service: a list of pending
raw responses consumed in order (exactly how the tests of the repository stub
`ChatOpenAI`), a counter of service calls, plus the two pieces of
generator-visible state the claims are about — the `design_doc` string
accumulator of `WorldGenerator` and a log of the item-generation prompts
that were actually issued. -/

/-- One raw model response: the raw text (what `StrOutputParser` yields)
together with its JSON extraction (`some` when the text parses as JSON,
`none` when `json` decoding / `JsonOutputParser` fails on it). -/
structure Raw where
  text : String
  parsed : Option Json
deriving Repr

/-- Generator-run state: scripted pending responses, number of
CompletionService calls made so far, the `WorldGenerator.design_doc`
instance attribute, and the log of issued item-generation prompts. -/
structure GenState where
  pending : List Raw
  calls : Nat
  design_doc : String
  itemPrompts : List String
deriving Repr

/-- One CompletionService call: consume the next scripted response and
bump the call counter (an exhausted script yields an empty response). -/
def callService (s : GenState) : Raw × GenState :=
  match s.pending with
  | [] => (⟨"", none⟩, { s with calls := s.calls + 1 })
  | r :: rest => (r, { s with pending := rest, calls := s.calls + 1 })

/-- `JsonOutputParser.parse` on a raw response: the JSON extraction, or
the langchain `OutputParserException` when the text is not valid JSON. -/
def jsonOutputParse (r : Raw) : Except PyErr Json :=
  match r.parsed with
  | some j => .ok j
  | none => .error (.outputParserException "Invalid json output")

/-- `PydanticOutputParser(pydantic_object=GameMechanics).parse`: JSON
extraction followed by schema validation. -/
def pydanticParseGM (r : Raw) : Except PyErr GameMechanics := do
  let j ← jsonOutputParse r
  GameMechanics.validate j

/-- `PydanticOutputParser(pydantic_object=Items).parse`. -/
def pydanticParseItems (r : Raw) : Except PyErr Items := do
  let j ← jsonOutputParse r
  Items.validate j

/-- Modelled from the spec: the langchain `OutputFixingParser` — the
StructuredOutputExtractor of spec §4.2 — is library code, not part of
`src/`.  Per the spec it attempts the parse and, on failure, issues
exactly one repair attempt (one additional CompletionService call whose
response replaces the raw text) before surfacing the parse error; this
also matches the library default `max_retries=1`. -/
def fixingParse (parse : Raw → Except PyErr α) (r : Raw) (s : GenState) :
    Except PyErr α × GenState :=
  match parse r with
  | .ok v => (.ok v, s)
  | .error _ =>
    let (r2, s2) := callService s
    (parse r2, s2)

/-- `random.choice(seq)`: `seq[randbelow(len(seq))]`.  The random draw is
modelled by an arbitrary natural `pick`, reduced modulo the length; an
empty sequence raises `IndexError`, a dict raises `KeyError` (lookup of a
random int key), and unsized values raise `TypeError`. -/
def pyChoice (j : Json) (pick : Nat) : Except PyErr Json :=
  match j with
  | .arr [] => .error (.indexError "list index out of range")
  | .arr l => .ok (l.getD (pick % l.length) Json.null)
  | .str s =>
    match s.data with
    | [] => .error (.indexError "string index out of range")
    | c :: cs =>
      .ok (.str (String.mk [(c :: cs).getD (pick % (c :: cs).length) c]))
  | .obj _ => .error (.keyError "random int key")
  | _ => .error (.typeError "object has no len()")

/-- `SelectRandomThemeParser.parse_result`
(`src/llm/generators/theme_generator.py` lines 16-18, identical in
`src/llm/generators/world_generator.py` lines 22-24 and
`SelectRandomOutputParser` of `src/llm/world.py`):
`random.choice(super().parse_result(text)["themes"])`.  Subscripting a
parsed non-dict raises `TypeError`, a dict without the key raises
`KeyError`. -/
def selectRandomTheme (r : Raw) (pick : Nat) : Except PyErr Json := do
  let j ← jsonOutputParse r
  match j with
  | .obj fields =>
    match lookupPairs fields "themes" with
    | some v => pyChoice v pick
    | none => .error (.keyError "themes")
  | _ => .error (.typeError "value is not subscriptable by str")

/-- Python `str(...)` of a parsed JSON value, as interpolated into the
f-string prompts.  For composite values Python would print the `repr`;
no claim inspects that text (every exercised theme is a plain string), so
composites map to a marker. -/
def pyStr : Json → String
  | .str s => s
  | .num n => toString n
  | .bool true => "True"
  | .bool false => "False"
  | .null => "None"
  | .arr _ => "<list repr>"
  | .obj _ => "<dict repr>"

/-! ## The focused stage generators
(`mechanics_generator.py`, `item_generator.py`, `theme_generator.py`) -/

/-- `MechanicsGenerator.generate` (`src/llm/generators/mechanics_generator.py`
lines 34-82): one chain `prompt | llm | JsonOutputParser()`, then
`result.get("mechanics", [])`.  The parsed value is returned **without any
validation**: no count bound, no name-uniqueness check, no schema check
(the `OutputFixingParser` built in `__init__` is never used here).
`result.get` on a parsed non-dict raises `AttributeError`. -/
def MechanicsGenerator.generate (_theme _title _plot : String) (s : GenState) :
    Except PyErr Json × GenState :=
  let (r, s1) := callService s
  match jsonOutputParse r with
  | .error e => (.error e, s1)
  | .ok j =>
    match j with
    | .obj fields => (.ok ((lookupPairs fields "mechanics").getD (.arr [])), s1)
    | _ => (.error (.attributeError "object has no attribute get"), s1)

/-- `ItemGenerator.generate` (`src/llm/generators/item_generator.py`
lines 34-93): one chain `prompt | llm | JsonOutputParser()`, then
`result.get("items", [])` — again returned without any validation of
symbol length or name uniqueness. -/
def ItemGenerator.generate (s : GenState) : Except PyErr Json × GenState :=
  let (r, s1) := callService s
  match jsonOutputParse r with
  | .error e => (.error e, s1)
  | .ok j =>
    match j with
    | .obj fields => (.ok ((lookupPairs fields "items").getD (.arr [])), s1)
    | _ => (.error (.attributeError "object has no attribute get"), s1)

/-- `ThemeGenerator.generate` (`src/llm/generators/theme_generator.py`
lines 78-121): one chain `prompt | llm | SelectRandomThemeParser()`.  The
prompt asks for five themes; the parser applies no count or distinctness
validation (it is constructed without a `pydantic_object`, and the langchain
`JsonOutputParser` never validates against one anyway). -/
def ThemeGenerator.generate (pick : Nat) (s : GenState) :
    Except PyErr Json × GenState :=
  let (r, s1) := callService s
  (selectRandomTheme r pick, s1)

/-! ## `WorldGenerator` (`src/llm/generators/world_generator.py`) -/

/-- The names bound at module scope of
`src/llm/generators/world_generator.py`: its imports (lines 6-16) and its
own definitions.  `json` is **not** among them — the module only imports
`json` inside the `if __name__ == "__main__":` block, after generation. -/
def worldGeneratorModuleNames : List String :=
  ["random", "itemgetter", "Any", "Dict", "List", "Optional",
   "OutputFixingParser", "PydanticOutputParser", "JsonOutputParser",
   "StrOutputParser", "RunnableParallel", "identity", "BaseGenerator",
   "GameMechanics", "Items", "Themes", "WorldModel",
   "SelectRandomThemeParser", "WorldGenerator", "main"]

/-- Whether the name `json` resolves inside
`WorldGenerator.generate_game_mechanics`. -/
def jsonInWorldGeneratorScope : Bool :=
  worldGeneratorModuleNames.contains "json"

/-- An apostrophe (kept out of string literals). -/
def apos : String := String.singleton (Char.ofNat 39)

/-- Stand-in for `item_parser.get_format_instructions()` — opaque
langchain text appended to the items prompt; its content is never
inspected. -/
def itemsFormatInstructions : String := "FORMAT_INSTRUCTIONS(Items)"

/-- The items prompt of `WorldGenerator.generate_items`
(`src/llm/generators/world_generator.py` lines 194-207), as a function of
the current design document and of `str(game_mechanic)`. -/
def itemsPromptText (designDoc gmStr : String) : String :=
  "We" ++ apos ++ "re in the process of a game design. " ++
  "You will be supplied with the design document and one of the game mechanics. " ++
  "Your job is to come up with a list of 0 to 3 items that will be used in the game. " ++
  "They should be strictly aligned with the game mechanic given. " ++
  "If the game mechanic does not have anything to do with the items, give an empty list.\n" ++
  "Here" ++ apos ++ "s the design document:\n" ++
  designDoc ++ "\n\n" ++
  "Here" ++ apos ++ "s the game mechanic:\n" ++
  gmStr ++ "\n\n" ++
  itemsFormatInstructions

/-- `WorldGenerator.generate_themes` (lines 76-90): chain
`partial_chain | theme_parser` — one service call, then
`SelectRandomThemeParser.parse_result`. -/
def WorldGenerator.generate_themes (pick : Nat) (s : GenState) :
    Except PyErr Json × GenState :=
  let (r, s1) := callService s
  (selectRandomTheme r pick, s1)

/-- `WorldGenerator.generate_title` (lines 92-109): one service call
through `StrOutputParser`, then
`self.design_doc += f"Theme: {theme}\n"; self.design_doc += f"Title: {title}\n"`. -/
def WorldGenerator.generate_title (theme : String) (s : GenState) :
    String × GenState :=
  let (r, s1) := callService s
  let title := r.text
  (title,
   { s1 with design_doc :=
      (s1.design_doc ++ ("Theme: " ++ theme ++ "\n")) ++
      ("Title: " ++ title ++ "\n") })

/-- `WorldGenerator.generate_plot` (lines 111-129): one service call
through `StrOutputParser`, then `self.design_doc += f"Plot: {plot}\n"`. -/
def WorldGenerator.generate_plot (_theme _title : String) (s : GenState) :
    String × GenState :=
  let (r, s1) := callService s
  let plot := r.text
  (plot, { s1 with design_doc := s1.design_doc ++ ("Plot: " ++ plot ++ "\n") })

/-- An element of the list `WorldGenerator.generate_game_mechanics`
returns: a parsed `GameMechanic` model object on the success path, or a
raw JSON dict on the (dead) raw-JSON fallback path. -/
inductive MechItem where
  | model (g : GameMechanic)
  | dict (j : Json)
deriving Repr

/-- The synthetic fallback mechanic of
`WorldGenerator.generate_game_mechanics` (lines 179-182). -/
def fallbackMechanicJson (theme title : String) : Json :=
  .obj [("name", .str ("Adventure in " ++ theme)),
        ("description",
         .str ("Explore the world of " ++ title ++
               " with unique challenges and discoveries."))]

/-- `WorldGenerator.generate_game_mechanics` (lines 131-182).
`try`: chain `partial_chain | gm_parser` — one service call for the
completion, parsed by the fixing parser (up to one repair call).
`except`: chain `partial_chain | StrOutputParser()` — one **further**
service call, then `json.loads(raw_result)`.  Since `json` is not bound at
module scope (`worldGeneratorModuleNames`), evaluating `json.loads` raises
`NameError` (and the `except json.JSONDecodeError:` clause cannot even be
evaluated), so the raw-JSON fallback and the synthetic fallback mechanic
are dead code; they are embedded under `jsonInWorldGeneratorScope` for
reference. -/
def WorldGenerator.generate_game_mechanics (theme title _plot : String)
    (s : GenState) : Except PyErr (List MechItem) × GenState :=
  let (r1, s1) := callService s
  match fixingParse pydanticParseGM r1 s1 with
  | (.ok gms, s2) => (.ok (gms.mechanics.map MechItem.model), s2)
  | (.error _, s2) =>
    let (r3, s3) := callService s2
    if jsonInWorldGeneratorScope then
      match r3.parsed with
      | some parsed =>
        match parsed.get? "mechanics" with
        | some (.arr l) => (.ok (l.map MechItem.dict), s3)
        | _ => (.error (.validationError "Invalid mechanics format"), s3)
      | none => (.ok [MechItem.dict (fallbackMechanicJson theme title)], s3)
    else
      (.error (.nameError "name json is not defined"), s3)

/-- `WorldGenerator.generate_items` (lines 184-210): the items prompt
interpolates `str(game_mechanic)`, which raises `TypeError` for any
non-empty `GameMechanics` (`GameMechanics.pyStrOf`), aborting **before**
the prompt is completed or any service call is made.  Otherwise the prompt
is issued (one call, plus up to one repair by the fixing parser). -/
def WorldGenerator.generate_items (gm : GameMechanics) (s : GenState) :
    Except PyErr (List Item) × GenState :=
  match gm.pyStrOf with
  | .error e => (.error e, s)
  | .ok gmStr =>
    let prompt := itemsPromptText s.design_doc gmStr
    let s1 := { s with itemPrompts := s.itemPrompts ++ [prompt] }
    let (r, s2) := callService s1
    match fixingParse pydanticParseItems r s2 with
    | (.ok its, s3) => (.ok its.items, s3)
    | (.error e, s3) => (.error e, s3)

/-- The normalization loop of `WorldGenerator.generate` (lines 233-240):
dict elements become `GameMechanic(**mech)` (validated), anything else is
kept and validated when `GameMechanics(mechanics=processed_mechanics)` is
constructed. -/
def processMechItems : List MechItem → Except PyErr (List GameMechanic)
  | [] => .ok []
  | .model g :: rest => do
    let gs ← processMechItems rest
    .ok (g :: gs)
  | .dict j :: rest => do
    let g ← GameMechanic.validate j
    let gs ← processMechItems rest
    .ok (g :: gs)

/-- The per-mechanic item loop of `WorldGenerator.generate`
(lines 243-248): each mechanic is wrapped in a singleton `GameMechanics`
and handed to `generate_items`; the results are concatenated in mechanic
order. -/
def worldItemsLoop : List GameMechanic → GenState →
    Except PyErr (List Item) × GenState
  | [], s => (.ok [], s)
  | m :: rest, s =>
    match WorldGenerator.generate_items ⟨[m]⟩ s with
    | (.error e, s1) => (.error e, s1)
    | (.ok its, s1) =>
      match worldItemsLoop rest s1 with
      | (.error e, s2) => (.error e, s2)
      | (.ok more, s2) => (.ok (its ++ more), s2)

/-- `WorldGenerator.generate` (lines 212-258): theme → title → plot →
mechanics → per-mechanic items → assembly.  Assembly passes the Python
dict `{}` for `global_entities` (line 257), which pydantic v1 validates
against `List[EntityModel]`. -/
def WorldGenerator.generate (pick : Nat) (s : GenState) :
    Except PyErr WorldModel × GenState :=
  match WorldGenerator.generate_themes pick s with
  | (.error e, s1) => (.error e, s1)
  | (.ok themeJ, s1) =>
    let θ := pyStr themeJ
    let (t, s2) := WorldGenerator.generate_title θ s1
    let (p, s3) := WorldGenerator.generate_plot θ t s2
    match WorldGenerator.generate_game_mechanics θ t p s3 with
    | (.error e, s4) => (.error e, s4)
    | (.ok mlist, s4) =>
      match processMechItems mlist with
      | .error e => (.error e, s4)
      | .ok processed =>
        match worldItemsLoop processed s4 with
        | (.error e, s5) => (.error e, s5)
        | (.ok allItems, s5) =>
          match globalEntitiesValidate (Json.obj []) with
          | .error e => (.error e, s5)
          | .ok ges => (.ok ⟨θ, t, p, ⟨processed⟩, ⟨allItems⟩, ges⟩, s5)

/-! ## Claim-specific inputs and predicates -/

/-- A response that is not valid JSON (fails every structured parse). -/
def malformedRaw : Raw := ⟨"this is not json", none⟩

/-- Scripted service for the double-failure Mechanics scenario: invalid
JSON on the initial call, on the repair call, and on the raw fallback
call. -/
def doubleFailState : GenState := ⟨[malformedRaw, malformedRaw, malformedRaw], 0, "", []⟩

/-- The per-stage call budget asserted by the claim: any Mechanics-stage
invocation costs at most 2 CompletionService calls. -/
def stageBudgetTwo : Prop :=
  ∀ (θ t p : String) (s : GenState),
    (WorldGenerator.generate_game_mechanics θ t p s).2.calls ≤ s.calls + 2

/-- Scripted service for C1: same double-failure scenario, separate state
value so no two claims share a counterexample input. -/
def threeCallState : GenState := ⟨[malformedRaw, malformedRaw, malformedRaw], 0, "", []⟩

/-- Claim C1 (counterexample): the worst-case Mechanics stage invocation
does NOT stay within 2 CompletionService calls: when the initial parse and
the repair both fail, `WorldGenerator.generate_game_mechanics` issues a
third call for the raw-JSON fallback chain — the concrete double-failure
script consumes exactly 3 calls. -/
theorem mechanics_stage_exceeds_two_calls : ¬ stageBudgetTwo := by
  intro h
  have h3 := h "t" "i" "p" threeCallState
  rw [show (WorldGenerator.generate_game_mechanics "t" "i" "p" threeCallState).2.calls = 3
        from rfl, show threeCallState.calls = 0 from rfl] at h3
  omega

/-- Each CompletionService call increments the counter by exactly one. -/
theorem callService_calls (s : GenState) : (callService s).2.calls = s.calls + 1 := by
  cases h : s.pending <;> simp [callService, h]

/-- The fixing parser issues at most one additional service call. -/
theorem fixingParse_calls {α : Type} (parse : Raw → Except PyErr α) (r : Raw)
    (s : GenState) : (fixingParse parse r s).2.calls ≤ s.calls + 1 := by
  unfold fixingParse
  cases parse r with
  | ok v => simp
  | error e => simp [callService_calls]

/-- Claim C1 (amended): the Extractor (fixing parser) issues at most one
additional CompletionService call, but the Mechanics stage of
`WorldGenerator` re-invokes the service once more for its raw-JSON
fallback, so one stage invocation costs at most 3 calls in the worst case
(not 2). -/
theorem mechanics_stage_call_bound (θ t p : String) (s : GenState) :
    (WorldGenerator.generate_game_mechanics θ t p s).2.calls ≤ s.calls + 3 ∧
    (∀ (r : Raw) (s₁ : GenState),
      (fixingParse pydanticParseGM r s₁).2.calls ≤ s₁.calls + 1) := by
  refine ⟨?_, fun r s₁ => fixingParse_calls pydanticParseGM r s₁⟩
  unfold WorldGenerator.generate_game_mechanics
  rcases hc : callService s with ⟨r1, s1⟩
  have h1 : s1.calls = s.calls + 1 := by
    have h := callService_calls s
    rw [hc] at h
    exact h
  dsimp only
  rcases hf : fixingParse pydanticParseGM r1 s1 with ⟨res, s2⟩
  have h2 : s2.calls ≤ s1.calls + 1 := by
    have h := fixingParse_calls pydanticParseGM r1 s1
    rw [hf] at h
    exact h
  cases res with
  | ok gms => simp; omega
  | error e =>
    rw [show jsonInWorldGeneratorScope = false from rfl]
    rcases hsp : s2.pending with _ | ⟨r0, rest⟩ <;>
      simp [callService, hsp] <;> omega

/-- Claim C2: in the double-failure Mechanics scenario the generator does
NOT return the synthetic fallback mechanic — `world_generator.py` never
imports `json` at module scope, so the raw-JSON fallback raises
`NameError` at `json.loads(raw_result)` and the whole call fails. -/
theorem mechanics_double_failure_raises_nameError :
    (WorldGenerator.generate_game_mechanics "Haunted Library" "The Last Borrower"
        "Find the cursed book before dawn" doubleFailState).1
      = .error (.nameError "name json is not defined") ∧
    jsonInWorldGeneratorScope = false := ⟨rfl, rfl⟩

/-- Name extraction from a raw mechanic/item JSON dict, for the count and
uniqueness predicates. -/
def jsonNameOf (j : Json) : Option String :=
  match j.get? "name" with
  | some (.str s) => some s
  | _ => none

/-- The acceptance constraint the claim (and the generator docstring)
states for a mechanics set: between 2 and 7 mechanics, pairwise-distinct
names. -/
def mechSetOk (l : List Json) : Prop :=
  2 ≤ l.length ∧ l.length ≤ 7 ∧ (l.map jsonNameOf).Nodup

/-- Scripted service for C3: a well-formed response whose mechanics list
is empty. -/
def emptyMechanicsState : GenState :=
  ⟨[⟨"x", some (.obj [("mechanics", .arr [])])⟩], 0, "", []⟩

/-- Claim C3: `MechanicsGenerator.generate` enforces NO count or
uniqueness constraint — it returns `result.get("mechanics", [])`
unvalidated, so a successful call can return 0 mechanics, violating the
documented `2-7 mechanics` guarantee of its own docstring. -/
theorem mechanics_generate_no_count_validation :
    (MechanicsGenerator.generate "Haunted Library" "The Last Borrower"
        "Find the cursed book before dawn" emptyMechanicsState).1
      = .ok (.arr []) ∧ ¬ mechSetOk [] := by
  refine ⟨rfl, ?_⟩
  intro h
  rcases h with ⟨h2, _⟩
  simp at h2

/-- The acceptance constraint the claim states for a generated item set:
every symbol is a single character and names are pairwise distinct
(`ItemGenerator.generate` emits raw dicts keyed `symbol`). -/
def itemSetOk (l : List Json) : Prop :=
  (∀ j ∈ l, ∃ s, j.get? "symbol" = some (.str s) ∧ s.length = 1) ∧
  (l.map jsonNameOf).Nodup

/-- A generated item dict with a three-character symbol. -/
def gemLong : Json :=
  .obj [("name", .str "Gem"), ("symbol", .str "ABC"),
        ("description", .str "a big gem"), ("mechanic", .str "Mining"),
        ("rarity", .str "rare")]

/-- A second generated item dict reusing the same name. -/
def gemDup : Json :=
  .obj [("name", .str "Gem"), ("symbol", .str "!"),
        ("description", .str "another gem"), ("mechanic", .str "Mining"),
        ("rarity", .str "common")]

/-- Scripted service for C5: a well-formed items response whose items have
a multi-character symbol and duplicate names. -/
def badItemsState : GenState :=
  ⟨[⟨"x", some (.obj [("items", .arr [gemLong, gemDup])])⟩], 0, "", []⟩

/-- Claim C5: `ItemGenerator.generate` enforces neither the
single-character-symbol constraint nor name uniqueness: it returns
`result.get("items", [])` unvalidated (and the `Item` schema
`Field(description=...)` attaches no validation either), so a successful
call returns an item with symbol `ABC` and two items named `Gem`,
violating the documented guarantees. -/
theorem items_generate_no_symbol_or_uniqueness_validation :
    (ItemGenerator.generate badItemsState).1 = .ok (.arr [gemLong, gemDup]) ∧
    ¬ itemSetOk [gemLong, gemDup] := by
  refine ⟨rfl, ?_⟩
  intro h
  rcases h with ⟨hsym, _⟩
  rcases hsym gemLong (by simp) with ⟨s, hs, hlen⟩
  rw [show gemLong.get? "symbol" = some (.str "ABC") from rfl] at hs
  have : s = "ABC" := by
    injection hs with h1
    injection h1 with h2
    exact h2.symm
  subst this
  simp [String.length] at hlen

/-- Scripted service for C9: valid theme, title and plot responses, then a
well-formed mechanics response with an empty list, so the run reaches
assembly. -/
def assemblyState : GenState :=
  ⟨[⟨"x", some (.obj [("themes", .arr [.str "Dark Fantasy"])])⟩,
    ⟨"Test World", none⟩,
    ⟨"A mysterious adventure awaits", none⟩,
    ⟨"x", some (.obj [("mechanics", .arr [])])⟩], 0, "", []⟩

/-- The themes batch carried by a raw response (the parsed `themes`
list). -/
def themesBatch (r : Raw) : List Json :=
  match r.parsed with
  | some (.obj fields) =>
    match lookupPairs fields "themes" with
    | some (.arr l) => l
    | _ => []
  | _ => []

/-- The batch-size half of the claim: every successful theme selection
draws from a batch of exactly 10 distinct entries. -/
def themeBatchAlwaysTen : Prop :=
  ∀ (r : Raw) (pick : Nat) (v : Json), selectRandomTheme r pick = .ok v →
    (themesBatch r).length = 10 ∧ (themesBatch r).Nodup

/-- A parsed response carrying five distinct themes (what
`ThemeGenerator.generate` in fact asks the model for). -/
def fiveThemeRaw : Raw :=
  ⟨"x", some (.obj [("themes",
    .arr [.str "t1", .str "t2", .str "t3", .str "t4", .str "t5"])])⟩

/-- Claim C4 (counterexample): theme selection succeeds from a
five-element batch — no batch-size-10 validation exists anywhere on the
path (the parser is built without a schema and langchain JSON parsing
never applies the `Themes` bounds; the `ThemeGenerator` prompt even asks
for 5). -/
theorem theme_selection_from_batch_of_five : ¬ themeBatchAlwaysTen := by
  intro h
  have h5 := (h fiveThemeRaw 0 (.str "t1") rfl).1
  rw [show (themesBatch fiveThemeRaw).length = 5 from rfl] at h5
  omega

/-- Claim C4 (amended): no batch size or distinctness is validated, but
the membership half of the claim holds — whenever theme selection
succeeds, the selected value is an element of the parsed themes list. -/
theorem theme_selection_is_member (r : Raw) (j : Json) (l : List Json)
    (pick : Nat) (v : Json) (hp : r.parsed = some j)
    (hl : j.get? "themes" = some (.arr l))
    (hv : selectRandomTheme r pick = .ok v) : v ∈ l := by
  unfold selectRandomTheme jsonOutputParse at hv
  rw [hp] at hv
  cases j with
  | obj fields =>
    simp only [Json.get?] at hl
    dsimp only [bind, Except.bind] at hv
    rw [hl] at hv
    cases l with
    | nil => simp [pyChoice] at hv
    | cons x xs =>
      unfold pyChoice at hv
      simp only [Except.ok.injEq] at hv
      subst hv
      have hlt : pick % (x :: xs).length < (x :: xs).length :=
        Nat.mod_lt _ (by simp)
      rw [List.getD_eq_getElem?_getD, List.getElem?_eq_getElem hlt]
      exact List.getElem_mem hlt
  | null => simp [Json.get?] at hl
  | bool b => simp [Json.get?] at hl
  | num n => simp [Json.get?] at hl
  | str s => simp [Json.get?] at hl
  | arr es => simp [Json.get?] at hl

/-- Claim C4 witness: a concrete successful selection from the
five-theme batch is a member of that batch. -/
theorem theme_selection_is_member_witness :
    Json.str "t1" ∈ [Json.str "t1", Json.str "t2", Json.str "t3",
                     Json.str "t4", Json.str "t5"] :=
  theme_selection_is_member fiveThemeRaw
    (.obj [("themes", .arr [.str "t1", .str "t2", .str "t3", .str "t4", .str "t5"])])
    [Json.str "t1", Json.str "t2", Json.str "t3", Json.str "t4", Json.str "t5"]
    0 (.str "t1") rfl rfl rfl

/-- Claim C10: `SelectRandomThemeParser.parse_result` is partial exactly
as claimed: a parsed response without a `themes` key raises, an empty
`themes` list raises (`random.choice` of an empty sequence), and a value
is returned only when the themes list is non-empty. -/
theorem theme_parse_result_only_nonempty (r : Raw) (j : Json) (pick : Nat)
    (hp : r.parsed = some j) :
    (j.get? "themes" = none → ∃ e, selectRandomTheme r pick = .error e) ∧
    (∀ l, j.get? "themes" = some (.arr l) →
      ((l = [] → ∃ e, selectRandomTheme r pick = .error e) ∧
       (∀ v, selectRandomTheme r pick = .ok v → l ≠ []))) := by
  unfold selectRandomTheme jsonOutputParse
  rw [hp]
  dsimp only [bind, Except.bind]
  constructor
  · intro hnone
    cases j with
    | obj fields =>
      simp only [Json.get?] at hnone
      dsimp only
      rw [hnone]
      exact ⟨.keyError "themes", rfl⟩
    | null => exact ⟨_, rfl⟩
    | bool b => exact ⟨_, rfl⟩
    | num n => exact ⟨_, rfl⟩
    | str s => exact ⟨_, rfl⟩
    | arr es => exact ⟨_, rfl⟩
  · intro l hl
    cases j with
    | obj fields =>
      simp only [Json.get?] at hl
      dsimp only
      rw [hl]
      constructor
      · rintro rfl
        exact ⟨.indexError "list index out of range", rfl⟩
      · intro v hv
        rintro rfl
        simp [pyChoice] at hv
    | null => simp [Json.get?] at hl
    | bool b => simp [Json.get?] at hl
    | num n => simp [Json.get?] at hl
    | str s => simp [Json.get?] at hl
    | arr es => simp [Json.get?] at hl

/-- Claim C10 witness: on the concrete parsed response whose themes list
is empty, selection fails. -/
theorem theme_parse_result_only_nonempty_witness :
    ∃ e, selectRandomTheme ⟨"x", some (.obj [("themes", .arr [])])⟩ 0 = .error e :=
  ((theme_parse_result_only_nonempty ⟨"x", some (.obj [("themes", .arr [])])⟩
    (.obj [("themes", .arr [])]) 0 rfl).2 [] rfl).1 rfl

/-- Claim C9: `WorldGenerator.generate` passes the Python dict `{}` for
`global_entities`, but the field is declared `List[EntityModel]` and
pydantic v1 rejects a dict for a list field, so assembly raises
`ValidationError` — `generate()` never returns a WorldModel (with an empty
collection or otherwise).  Evaluated on a scripted run that reaches
assembly. -/
theorem world_generate_assembly_rejects_empty_dict :
    (WorldGenerator.generate 0 assemblyState).1
      = .error (.validationError "value is not a valid list") ∧
    globalEntitiesValidate (Json.obj [])
      = .error (.validationError "value is not a valid list") := ⟨rfl, rfl⟩

/-! ### Claim C6: referential integrity of `supportingMechanic` -/

/-- A serialized world document whose single item carries the generated
mechanic-reference key (`mechanic`, as the item prompts request) with the
given value, while the only mechanic of the model is named `Shadow Magic`. -/
def worldJsonWithRef (ref : String) : Json :=
  .obj [("theme", .str "Dark Fantasy"), ("title", .str "Test World"),
        ("plot", .str "A mysterious adventure awaits"),
        ("mechanics", .obj [("mechanics",
          .arr [.obj [("name", .str "Shadow Magic"),
                      ("description", .str "Harness dark energy")]])]),
        ("items", .obj [("items",
          .arr [.obj [("name", .str "Shadow Blade"),
                      ("ascii_symbol", .str "/"),
                      ("description", .str "a dark sword"),
                      ("mechanic", .str ref)]])]),
        ("global_entities", .arr [])]

/-- The WorldModel that `worldJsonWithRef ref` validates to — note the
mechanic reference is gone: the `Item` schema has no `supportingMechanic`
field. -/
def w6 : WorldModel :=
  ⟨"Dark Fantasy", "Test World", "A mysterious adventure awaits",
   ⟨[⟨"Shadow Magic", "Harness dark energy"⟩]⟩,
   ⟨[⟨"Shadow Blade", "/", "a dark sword"⟩]⟩, []⟩

/-- The raw item dicts of a serialized world document. -/
def itemsJsonOf (j : Json) : List Json :=
  match j.get? "items" with
  | some ij =>
    match ij.get? "items" with
    | some (.arr l) => l
    | _ => []
  | _ => []

/-- The claim: in every world document that assembles (validates) into a
WorldModel, the mechanic reference of every raw item names one of the
mechanics. -/
def mechRefIntegrity : Prop :=
  ∀ (j : Json) (w : WorldModel), WorldModel.validate j = .ok w →
    ∀ ij ∈ itemsJsonOf j, ∀ r : String, ij.get? "mechanic" = some (.str r) →
      r ∈ w.mechanics.mechanics.map GameMechanic.name

/-- Claim C6 (counterexample): a world document whose item references the
nonexistent mechanic `Ghost Walking` assembles without complaint — no
referential-integrity check exists (the spec itself notes in §7 that the
source does not enforce one). -/
theorem assembled_world_accepts_dangling_reference : ¬ mechRefIntegrity := by
  intro h
  have hm := h (worldJsonWithRef "Ghost Walking") w6 rfl
    (.obj [("name", .str "Shadow Blade"), ("ascii_symbol", .str "/"),
           ("description", .str "a dark sword"),
           ("mechanic", .str "Ghost Walking")])
    (by rw [show itemsJsonOf (worldJsonWithRef "Ghost Walking")
          = [.obj [("name", .str "Shadow Blade"), ("ascii_symbol", .str "/"),
                   ("description", .str "a dark sword"),
                   ("mechanic", .str "Ghost Walking")]] from rfl]
        exact List.mem_singleton.mpr rfl)
    "Ghost Walking" rfl
  rw [show w6.mechanics.mechanics.map GameMechanic.name = ["Shadow Magic"] from rfl] at hm
  exact absurd hm (by decide)

/-- Claim C6 (amended): assembly performs no referential-integrity
validation at all — `Item` validation ignores and drops the generated
mechanic reference (the schema has no `supportingMechanic` field), and the
full document validates into the same WorldModel for **every** value of
the reference, dangling or not. -/
theorem assembly_ignores_mechanic_reference (ref : String) :
    Item.validate (.obj [("name", .str "Shadow Blade"), ("ascii_symbol", .str "/"),
        ("description", .str "a dark sword"), ("mechanic", .str ref)])
      = .ok ⟨"Shadow Blade", "/", "a dark sword"⟩ ∧
    WorldModel.validate (worldJsonWithRef ref) = .ok w6 := ⟨rfl, rfl⟩

/-! ### Claim C8: the design-document accumulator across runs -/

/-- `small` occurs as a contiguous substring of `big`. -/
def strContains (big small : String) : Prop :=
  small.data <:+: big.data

/-- Every string contains itself. -/
theorem strContains_self (s : String) : strContains s s :=
  ⟨[], [], by simp⟩

/-- Containment is preserved by prepending. -/
theorem strContains_appendL (a : String) {b small : String}
    (h : strContains b small) : strContains (a ++ b) small := by
  obtain ⟨s, t, hst⟩ := h
  exact ⟨a.data ++ s, t, by rw [String.data_append, List.append_assoc, List.append_assoc,
    ← List.append_assoc s, hst]⟩

/-- Containment is preserved by appending. -/
theorem strContains_appendR {a small : String} (b : String)
    (h : strContains a small) : strContains (a ++ b) small := by
  obtain ⟨s, t, hst⟩ := h
  exact ⟨s, t ++ b.data, by rw [String.data_append, ← hst]; simp⟩

/-- The design document is untouched by a service call. -/
theorem callService_design_doc (s : GenState) :
    (callService s).2.design_doc = s.design_doc := by
  cases h : s.pending <;> simp [callService, h]

/-- What `generate_title` appends to the design document. -/
theorem generate_title_design_doc (θ : String) (s : GenState) :
    (WorldGenerator.generate_title θ s).2.design_doc
      = (s.design_doc ++ ("Theme: " ++ θ ++ "\n"))
        ++ ("Title: " ++ (WorldGenerator.generate_title θ s).1 ++ "\n") := by
  unfold WorldGenerator.generate_title
  rcases hc : callService s with ⟨r, s1⟩
  have h := callService_design_doc s
  rw [hc] at h
  dsimp only at h
  simp [h]

/-- What `generate_plot` appends to the design document. -/
theorem generate_plot_design_doc (θ t : String) (s : GenState) :
    (WorldGenerator.generate_plot θ t s).2.design_doc
      = s.design_doc ++ ("Plot: " ++ (WorldGenerator.generate_plot θ t s).1 ++ "\n") := by
  unfold WorldGenerator.generate_plot
  rcases hc : callService s with ⟨r, s1⟩
  have h := callService_design_doc s
  rw [hc] at h
  dsimp only at h
  simp [h]

/-- Scripted service for two successive `generate()` calls on one
generator instance: each run gets a themes batch, a title, a plot and a
non-empty mechanics response. -/
def twoRunScript : GenState :=
  ⟨[⟨"x", some (.obj [("themes", .arr [.str "Dark Fantasy"])])⟩,
    ⟨"Test World", none⟩,
    ⟨"A mysterious adventure awaits", none⟩,
    ⟨"x", some (.obj [("mechanics", .arr [.obj [("name", .str "Shadow Magic"),
                                                ("description", .str "d")]])])⟩,
    ⟨"x", some (.obj [("themes", .arr [.str "Ocean Depths"])])⟩,
    ⟨"Below", none⟩,
    ⟨"Dive ever deeper", none⟩,
    ⟨"x", some (.obj [("mechanics", .arr [.obj [("name", .str "Pressure"),
                                                ("description", .str "d")]])])⟩],
   0, "", []⟩

/-- Claim C8 (counterexample): two successive `generate()` calls on the
same instance issue NO item-generation prompt at all — in both runs
`generate_items` aborts with `TypeError` while interpolating
`str(game_mechanic)` into the prompt (`GameMechanics.__str__` joins model
objects), so there is no second-run item prompt that could contain
text from the first run. -/
theorem second_run_issues_no_item_prompt :
    (WorldGenerator.generate 0 (WorldGenerator.generate 0 twoRunScript).2).2.itemPrompts
      = [] ∧
    (WorldGenerator.generate 0 (WorldGenerator.generate 0 twoRunScript).2).1
      = .error (.typeError "sequence item 0: expected str instance, GameMechanic found") :=
  ⟨rfl, rfl⟩

/-- Claim C8 (amended): `design_doc` is instance state appended by the
Title and Plot stages and never reset, so after the Title and
Plot stages of the second run it still contains the theme, title and plot text of the first run —
and so would the design-document section of any item prompt built from it
(no item prompt is actually completed, as the counterexample shows). -/
theorem design_doc_accumulates_across_runs
    (s0 s1 s2 s3 s4 : GenState) (θ1 θ2 t1 p1 t2 p2 : String)
    (h1 : WorldGenerator.generate_title θ1 s0 = (t1, s1))
    (h2 : WorldGenerator.generate_plot θ1 t1 s1 = (p1, s2))
    (h3 : WorldGenerator.generate_title θ2 s2 = (t2, s3))
    (h4 : WorldGenerator.generate_plot θ2 t2 s3 = (p2, s4)) :
    strContains s4.design_doc θ1 ∧ strContains s4.design_doc t1 ∧
    strContains s4.design_doc p1 ∧
    (∀ gmStr : String, strContains (itemsPromptText s4.design_doc gmStr) p1) := by
  have e1 := generate_title_design_doc θ1 s0
  rw [h1] at e1
  have e2 := generate_plot_design_doc θ1 t1 s1
  rw [h2] at e2
  have e3 := generate_title_design_doc θ2 s2
  rw [h3] at e3
  have e4 := generate_plot_design_doc θ2 t2 s3
  rw [h4] at e4
  dsimp only at e1 e2 e3 e4
  have hp1 : strContains s4.design_doc p1 := by
    rw [e4, e3, e2]
    exact strContains_appendR _ (strContains_appendR _ (strContains_appendR _
      (strContains_appendL _ (strContains_appendR _ (strContains_appendL _
        (strContains_self p1))))))
  refine ⟨?_, ?_, hp1, ?_⟩
  · rw [e4, e3, e2, e1]
    exact strContains_appendR _ (strContains_appendR _ (strContains_appendR _
      (strContains_appendR _ (strContains_appendR _ (strContains_appendL _
        (strContains_appendR _ (strContains_appendL _ (strContains_self θ1))))))))
  · rw [e4, e3, e2, e1]
    exact strContains_appendR _ (strContains_appendR _ (strContains_appendR _
      (strContains_appendR _ (strContains_appendL _ (strContains_appendR _
        (strContains_appendL _ (strContains_self t1)))))))
  · intro gmStr
    unfold itemsPromptText
    exact strContains_appendR _ (strContains_appendR _ (strContains_appendR _
      (strContains_appendR _ (strContains_appendR _ (strContains_appendR _
        (strContains_appendR _ (strContains_appendL _ hp1)))))))

/-- First-run scripted responses for the C8 witness (title and plot texts,
then those of the second run). -/
def wit0 : GenState :=
  ⟨[⟨"Test World", none⟩, ⟨"plot one", none⟩, ⟨"Title Two", none⟩,
    ⟨"plot two", none⟩], 0, "", []⟩

/-- The Title stage of run one on the witness script. -/
def witTitle1 : String × GenState := WorldGenerator.generate_title "Dark Fantasy" wit0

/-- The Plot stage of run one on the witness script. -/
def witPlot1 : String × GenState :=
  WorldGenerator.generate_plot "Dark Fantasy" witTitle1.1 witTitle1.2

/-- The Title stage of run two on the witness script. -/
def witTitle2 : String × GenState := WorldGenerator.generate_title "Theme Two" witPlot1.2

/-- The Plot stage of run two on the witness script. -/
def witPlot2 : String × GenState :=
  WorldGenerator.generate_plot "Theme Two" witTitle2.1 witTitle2.2

/-- Claim C8 witness: on a concrete two-run script, the design document
after the Plot stage of run two still contains the run-one theme,
title and plot. -/
theorem design_doc_accumulates_across_runs_witness :
    strContains witPlot2.2.design_doc "Dark Fantasy" ∧
    strContains witPlot2.2.design_doc witTitle1.1 ∧
    strContains witPlot2.2.design_doc witPlot1.1 ∧
    (∀ gmStr : String, strContains (itemsPromptText witPlot2.2.design_doc gmStr) witPlot1.1) :=
  design_doc_accumulates_across_runs wit0 witTitle1.2 witPlot1.2 witTitle2.2 witPlot2.2
    "Dark Fantasy" "Theme Two" witTitle1.1 witPlot1.1 witTitle2.1 witPlot2.1
    rfl rfl rfl rfl

/-! ### Claim C7: serialization round-trip of the WorldModel artifact -/

/-- Round-trip property for the persisted artifact: serializing with
pydantic v1 `.json()` and re-validating with `WorldModel(**json.load(f))`
reproduces the model field-for-field. -/
def worldRoundtrips (w : WorldModel) : Prop :=
  w.serialize.bind WorldModel.validate = .ok w

/-- A schema-valid WorldModel whose single entity still carries the
default `object()` uid (exactly what `EntityModel` produces when no uid is
supplied). -/
def w7bad : WorldModel :=
  ⟨"t", "i", "p", ⟨[]⟩, ⟨[]⟩, [⟨"Game", .defaultObject, []⟩]⟩

/-- Claim C7 (counterexample): round-tripping fails for a valid WorldModel
containing an entity with the default uid — pydantic v1 `.json()` raises
`TypeError: Object of type object is not JSON serializable`, so no
artifact is produced at all (and `cli.py` line 71 calls the nonexistent
v2 method `model_dump_json`, which raises `AttributeError` even sooner). -/
theorem world_roundtrip_fails_on_default_uid :
    ¬ (∀ w : WorldModel, worldRoundtrips w) := by
  intro h
  have hb := h w7bad
  unfold worldRoundtrips at hb
  rw [show w7bad.serialize.bind WorldModel.validate
        = .error (.typeError "Object of type object is not JSON serializable")
      from rfl] at hb
  exact Except.noConfusion hb

/-- One `GameMechanic` survives serialize-then-validate. -/
theorem gameMechanic_roundtrip (g : GameMechanic) :
    GameMechanic.validate g.toJson = .ok g := by
  cases g
  rfl

/-- A list of mechanics survives serialize-then-validate. -/
theorem gameMechanicList_roundtrip (l : List GameMechanic) :
    gameMechanicListValidate (l.map GameMechanic.toJson) = .ok l := by
  induction l with
  | nil => rfl
  | cons g rest ih =>
    calc gameMechanicListValidate ((g :: rest).map GameMechanic.toJson)
        = (do
            let g1 <- GameMechanic.validate g.toJson
            let gs <- gameMechanicListValidate (rest.map GameMechanic.toJson)
            Except.ok (g1 :: gs)) := rfl
      _ = .ok (g :: rest) := by (rw [gameMechanic_roundtrip, ih]; rfl)

/-- `GameMechanics` survives serialize-then-validate. -/
theorem gameMechanics_roundtrip (m : GameMechanics) :
    GameMechanics.validate m.toJson = .ok m := by
  cases m with
  | mk l =>
    calc GameMechanics.validate (GameMechanics.toJson ⟨l⟩)
        = (do
            let gs <- gameMechanicListValidate (l.map GameMechanic.toJson)
            Except.ok (GameMechanics.mk gs)) := rfl
      _ = .ok ⟨l⟩ := by (rw [gameMechanicList_roundtrip]; rfl)

/-- One `Item` survives serialize-then-validate. -/
theorem item_roundtrip (i : Item) : Item.validate i.toJson = .ok i := by
  cases i
  rfl

/-- A list of items survives serialize-then-validate. -/
theorem itemList_roundtrip (l : List Item) :
    itemListValidate (l.map Item.toJson) = .ok l := by
  induction l with
  | nil => rfl
  | cons i rest ih =>
    calc itemListValidate ((i :: rest).map Item.toJson)
        = (do
            let i1 <- Item.validate i.toJson
            let is <- itemListValidate (rest.map Item.toJson)
            Except.ok (i1 :: is)) := rfl
      _ = .ok (i :: rest) := by (rw [item_roundtrip, ih]; rfl)

/-- `Items` survives serialize-then-validate. -/
theorem items_roundtrip (m : Items) : Items.validate m.toJson = .ok m := by
  cases m with
  | mk l =>
    calc Items.validate (Items.toJson ⟨l⟩)
        = (do
            let is <- itemListValidate (l.map Item.toJson)
            Except.ok (Items.mk is)) := rfl
      _ = .ok ⟨l⟩ := by (rw [itemList_roundtrip]; rfl)

/-- There are no `PyAction` values, so every `pipelines` list is empty. -/
theorem pyActionList_eq_nil (l : List PyAction) : l = [] := by
  cases l with
  | nil => rfl
  | cons a _ => exact nomatch a

/-- One `ComponentModel` survives serialize-then-validate. -/
theorem componentModel_roundtrip (c : ComponentModel) :
    ComponentModel.validate c.toJson = .ok c := by
  cases c with
  | mk n attrs pipes =>
    have hp : pipes = [] := pyActionList_eq_nil pipes
    subst hp
    rfl

/-- A list of components survives serialize-then-validate. -/
theorem componentList_roundtrip (l : List ComponentModel) :
    componentListValidate (l.map ComponentModel.toJson) = .ok l := by
  induction l with
  | nil => rfl
  | cons c rest ih =>
    calc componentListValidate ((c :: rest).map ComponentModel.toJson)
        = (do
            let c1 <- ComponentModel.validate c.toJson
            let cs <- componentListValidate (rest.map ComponentModel.toJson)
            Except.ok (c1 :: cs)) := rfl
      _ = .ok (c :: rest) := by (rw [componentModel_roundtrip, ih]; rfl)

/-- An entity whose uid is a string serializes, and validates back to
itself. -/
theorem entity_roundtrip (e : EntityModel) (s : String) (hu : e.uid = .str s) :
    ∃ ej, e.serialize = .ok ej ∧ EntityModel.validate ej = .ok e := by
  cases e with
  | mk n u cs =>
    cases hu
    refine ⟨.obj [("name", .str n), ("uid", .str s),
                  ("components", .arr (cs.map ComponentModel.toJson))], rfl, ?_⟩
    calc EntityModel.validate (.obj [("name", .str n), ("uid", .str s),
            ("components", .arr (cs.map ComponentModel.toJson))])
        = (do
            let cs1 <- componentListValidate (cs.map ComponentModel.toJson)
            Except.ok (EntityModel.mk n (.str s) cs1)) := rfl
      _ = .ok ⟨n, .str s, cs⟩ := by (rw [componentList_roundtrip]; rfl)

/-- A list of string-uid entities serializes and validates back to
itself. -/
theorem entityList_roundtrip (es : List EntityModel)
    (h : ∀ e ∈ es, ∃ s, e.uid = PyUid.str s) :
    ∃ ejs, entityListSerialize es = .ok ejs ∧ entityListValidate ejs = .ok es := by
  induction es with
  | nil => exact ⟨[], rfl, rfl⟩
  | cons e rest ih =>
    obtain ⟨s, hs⟩ := h e (by simp)
    obtain ⟨ej, hser, hval⟩ := entity_roundtrip e s hs
    obtain ⟨ejs, hser2, hval2⟩ := ih (fun x hx => h x (by simp [hx]))
    refine ⟨ej :: ejs, ?_, ?_⟩
    · calc entityListSerialize (e :: rest)
          = (do
              let j1 <- e.serialize
              let js <- entityListSerialize rest
              Except.ok (j1 :: js)) := rfl
        _ = .ok (ej :: ejs) := by (rw [hser, hser2]; rfl)
    · calc entityListValidate (ej :: ejs)
          = (do
              let e1 <- EntityModel.validate ej
              let es1 <- entityListValidate ejs
              Except.ok (e1 :: es1)) := rfl
        _ = .ok (e :: rest) := by (rw [hval, hval2]; rfl)

/-- Claim C7 (amended): for every WorldModel whose entity uids are strings
(in particular whenever `global_entities` is empty, the only value the
pipeline ever aims to produce), the pydantic v1 `.json()` artifact has
exactly the six claimed top-level keys and `WorldModel(**json.load(f))`
reproduces the model field-for-field.  (Models holding the default
`object()` uid fail to serialize at all — see the counterexample.) -/
theorem world_roundtrip_for_string_uids (w : WorldModel)
    (h : ∀ e ∈ w.global_entities, ∃ s, e.uid = PyUid.str s) :
    ∃ j, w.serialize = .ok j ∧
      j.topKeys = ["theme", "title", "plot", "mechanics", "items", "global_entities"] ∧
      WorldModel.validate j = .ok w := by
  cases w with
  | mk θ t p ms is ges =>
    obtain ⟨ejs, hser, hval⟩ := entityList_roundtrip ges h
    refine ⟨.obj [("theme", .str θ), ("title", .str t), ("plot", .str p),
                  ("mechanics", ms.toJson), ("items", is.toJson),
                  ("global_entities", .arr ejs)], ?_, rfl, ?_⟩
    · calc WorldModel.serialize ⟨θ, t, p, ms, is, ges⟩
          = (do
              let js <- entityListSerialize ges
              Except.ok (Json.obj [("theme", .str θ), ("title", .str t),
                ("plot", .str p), ("mechanics", ms.toJson), ("items", is.toJson),
                ("global_entities", .arr js)])) := rfl
        _ = _ := by (rw [hser]; rfl)
    · calc WorldModel.validate (.obj [("theme", .str θ), ("title", .str t),
              ("plot", .str p), ("mechanics", ms.toJson), ("items", is.toJson),
              ("global_entities", .arr ejs)])
          = (do
              let ms1 <- GameMechanics.validate ms.toJson
              let is1 <- Items.validate is.toJson
              let ges1 <- entityListValidate ejs
              Except.ok (WorldModel.mk θ t p ms1 is1 ges1)) := rfl
        _ = .ok ⟨θ, t, p, ms, is, ges⟩ := by
            rw [gameMechanics_roundtrip, items_roundtrip, hval]
            rfl

/-- A concrete valid WorldModel with a string-uid entity for the C7
witness. -/
def w7good : WorldModel :=
  ⟨"Dark Fantasy", "Test World", "A mysterious adventure awaits",
   ⟨[⟨"Shadow Magic", "Harness dark energy"⟩]⟩,
   ⟨[⟨"Shadow Blade", "/", "A dark sword"⟩,
     ⟨"Health Potion", "!", "Restores health"⟩]⟩,
   [⟨"Game", .str "game-1", [⟨"main", [("value", .num 100)], []⟩]⟩]⟩

/-- Claim C7 witness: the concrete model round-trips with the six claimed
top-level keys. -/
theorem world_roundtrip_for_string_uids_witness :
    ∃ j, w7good.serialize = .ok j ∧
      j.topKeys = ["theme", "title", "plot", "mechanics", "items", "global_entities"] ∧
      WorldModel.validate j = .ok w7good :=
  world_roundtrip_for_string_uids w7good (by
    intro e he
    simp only [w7good, List.mem_singleton] at he
    subst he
    exact ⟨"game-1", rfl⟩)

end AiRogue
